import Mathlib

/-!
Shallow embedding of the Shade invoicing contract (contracts/shade) and its
merchant escrow account (contracts/account), translated from the Rust/Soroban
source.  Identities, token contracts and account addresses are modelled as
naturals; i128 amounts as `Int`; u64 timestamps and counters as `Nat`;
fallible entry points return `Except ContractError _`, which models Soroban's
all-or-nothing transaction semantics (an error reverts every write of the
call).  Caller authentication (`require_auth`) is treated as always granted,
as in the repository's tests (`mock_all_auths`); the authorization checks the
contract performs itself (ownership, admin identity) are translated directly.
-/

namespace Shade

/-- On-ledger identities, token contracts and contract addresses. -/
abbrev Addr := Nat

/-- `InvoiceStatus` from contracts/shade/src/types.rs. -/
inductive InvoiceStatus
  | Pending
  | Paid
  | Cancelled
  | Refunded
  | PartiallyRefunded
  deriving DecidableEq, Repr

/-- `ContractError` from contracts/shade/src/errors.rs, extended with the two
failure kinds raised by external collaborators: the escrow account refusing a
refund while restricted, and the token ledger refusing a transfer. -/
inductive ContractError
  | NotAuthorized
  | AlreadyInitialized
  | NotInitialized
  | Reentrancy
  | MerchantAlreadyRegistered
  | MerchantNotFound
  | InvalidAmount
  | InvoiceNotFound
  | ContractPaused
  | ContractNotPaused
  | MerchantKeyNotFound
  | TokenNotAccepted
  | MerchantAccountNotFound
  | InvalidInvoiceStatus
  | RefundPeriodExpired
  | WasmHashNotSet
  | InvoiceAlreadyPaid
  | MerchantAccountNotSet
  | AccountRestricted
  | InsufficientBalance
  deriving DecidableEq, Repr

/-- `Invoice` record from contracts/shade/src/types.rs. -/
structure Invoice where
  id : Nat
  description : String
  amount : Int
  token : Addr
  status : InvoiceStatus
  merchant_id : Nat
  payer : Option Addr
  date_created : Nat
  date_paid : Option Nat
  amount_refunded : Int
  deriving DecidableEq, Repr

/-- The persistent storage of the Shade contract together with the external
collaborators it calls into: the token ledger's balances and the per-escrow
restriction flags.  Each field mirrors one `DataKey` family (or, where the
component source is absent from the tree, the storage the spec describes). -/
structure State where
  /-- `DataKey::Admin`. -/
  admin : Option Addr
  /-- `DataKey::Paused` (absent key reads as `false`). -/
  paused : Bool
  /-- Modelled from the spec: the accepted-token allowlist kept by the admin
  component (components/admin.rs is not in the source tree). -/
  acceptedTokens : Addr → Bool
  /-- Modelled from the spec: per-token fee in basis points stored by
  `set_fee` and read by `admin::get_fee` (components/admin.rs is not in the
  source tree). -/
  feeBps : Addr → Int
  /-- `DataKey::MerchantId(address)`. -/
  merchantId : Addr → Option Nat
  /-- Modelled from the spec: the merchant record's address field, read
  through `merchant::get_merchant` (components/merchant.rs is not in the
  source tree). -/
  merchantAddr : Nat → Option Addr
  /-- Modelled from the spec: the escrow-account address resolved by
  `merchant::get_merchant_account` (components/merchant.rs is not in the
  source tree). -/
  merchantAccount : Nat → Option Addr
  /-- `DataKey::MerchantBalance(address)`: the merchant's escrow-account
  address, read directly by the refund path. -/
  merchantBalance : Addr → Option Addr
  /-- `DataKey::Invoice(id)`. -/
  invoices : Nat → Option Invoice
  /-- `DataKey::InvoiceCount` (absent key reads as `0`). -/
  invoiceCount : Nat
  /-- External token ledger: `ledger token holder` is the holder's balance. -/
  ledger : Addr → Addr → Int
  /-- Modelled from the spec: each escrow account's `restricted` flag
  (contracts/account/src/account.rs is not in the source tree). -/
  accountRestricted : Addr → Bool
  /-- `env.current_contract_address()` of the Shade contract. -/
  selfAddr : Addr

/-- `MAX_REFUND_DURATION` from contracts/shade/src/components/invoice.rs. -/
def MAX_REFUND_DURATION : Nat := 604800

/-- Point update of an invoice store. -/
def setInv (m : Nat → Option Invoice) (i : Nat) (v : Invoice) : Nat → Option Invoice :=
  fun j => if j = i then some v else m j

/-- Point update of a token-ledger balance. -/
def setBal (led : Addr → Addr → Int) (tok who : Addr) (v : Int) : Addr → Addr → Int :=
  fun t h => if t = tok then (if h = who then v else led t h) else led t h

/-- External token ledger `transfer(from, to, amount)`: fails (reverting the
whole enclosing call) on a negative amount or insufficient source balance,
otherwise debits the source and credits the destination. -/
def transfer (led : Addr → Addr → Int) (tok src dst : Addr) (amt : Int) :
    Except ContractError (Addr → Addr → Int) :=
  if amt < 0 then .error .InsufficientBalance
  else if led tok src < amt then .error .InsufficientBalance
  else
    let led1 := setBal led tok src (led tok src - amt)
    .ok (setBal led1 tok dst (led1 tok dst + amt))

/-- Modelled from the spec: the escrow `MerchantAccount.refund(token, amount,
recipient)` entry point (contracts/account/src/account.rs is not in the source
tree; behaviour per spec §4.4 and tests/test_token_balance.rs): fails if the
account is restricted, else transfers `amount` of `token` from the account to
the recipient via the token ledger. -/
def accountRefund (s : State) (acct tok : Addr) (amt : Int) (recipient : Addr) :
    Except ContractError State :=
  if s.accountRestricted acct then .error .AccountRestricted
  else
    match transfer s.ledger tok acct recipient amt with
    | .error e => .error e
    | .ok led => .ok { s with ledger := led }

/-- Modelled from the spec: `merchant::is_merchant` (components/merchant.rs is
not in the source tree): registry membership, i.e. a `MerchantId` entry exists
for the address. -/
def is_merchant (s : State) (a : Addr) : Bool :=
  (s.merchantId a).isSome

/-- `create_invoice` from contracts/shade/src/components/invoice.rs. -/
def create_invoice (s : State) (merchant_address : Addr) (description : String)
    (amount : Int) (token : Addr) (now : Nat) : Except ContractError (State × Nat) :=
  if amount ≤ 0 then .error .InvalidAmount
  else if ¬ is_merchant s merchant_address then .error .NotAuthorized
  else
    match s.merchantId merchant_address with
    | none => .error .NotAuthorized
    | some merchant_id =>
      let new_invoice_id := s.invoiceCount + 1
      let invoice : Invoice :=
        { id := new_invoice_id
          description := description
          amount := amount
          token := token
          status := .Pending
          merchant_id := merchant_id
          payer := none
          date_created := now
          date_paid := none
          amount_refunded := 0 }
      .ok ({ s with invoices := setInv s.invoices new_invoice_id invoice
                    invoiceCount := new_invoice_id }, new_invoice_id)

/-- `get_invoice` from contracts/shade/src/components/invoice.rs. -/
def get_invoice (s : State) (invoice_id : Nat) : Except ContractError Invoice :=
  match s.invoices invoice_id with
  | none => .error .InvoiceNotFound
  | some invoice => .ok invoice

/-- Translation of `refund_invoice_partial` from
contracts/shade/src/components/invoice.rs (renamed here): resolve the
invoice and its merchant, check status, amount, the refund window, then call
the escrow account's refund and update the invoice. -/
def refund_invoice_part (s : State) (invoice_id : Nat) (amount : Int) (now : Nat) :
    Except ContractError State :=
  match s.invoices invoice_id with
  | none => .error .InvoiceNotFound
  | some invoice =>
    match s.merchantAddr invoice.merchant_id with
    | none => .error .MerchantNotFound
    | some merchant_address =>
      if invoice.status ≠ .Paid ∧ invoice.status ≠ .PartiallyRefunded then
        .error .InvalidInvoiceStatus
      else if amount ≤ 0 ∨ invoice.amount_refunded + amount > invoice.amount then
        .error .InvalidAmount
      else
        match invoice.date_paid with
        | none => .error .InvalidInvoiceStatus
        | some date_paid =>
          if now < date_paid ∨ now - date_paid > MAX_REFUND_DURATION then
            .error .RefundPeriodExpired
          else
            match invoice.payer with
            | none => .error .InvalidInvoiceStatus
            | some payer =>
              match s.merchantBalance merchant_address with
              | none => .error .MerchantAccountNotFound
              | some merchant_account =>
                match accountRefund s merchant_account invoice.token amount payer with
                | .error e => .error e
                | .ok s1 =>
                  let refunded := invoice.amount_refunded + amount
                  let invoice2 :=
                    { invoice with
                      amount_refunded := refunded
                      status :=
                        if refunded = invoice.amount then InvoiceStatus.Refunded
                        else InvoiceStatus.PartiallyRefunded }
                  .ok { s1 with invoices := setInv s1.invoices invoice_id invoice2 }

/-- `refund_invoice` from contracts/shade/src/components/invoice.rs. -/
def refund_invoice (s : State) (merchant_address : Addr) (invoice_id : Nat) (now : Nat) :
    Except ContractError State :=
  match s.invoices invoice_id with
  | none => .error .InvoiceNotFound
  | some invoice =>
    match s.merchantId merchant_address with
    | none => .error .NotAuthorized
    | some merchant_id =>
      if invoice.merchant_id ≠ merchant_id then .error .NotAuthorized
      else
        let amount_to_refund := invoice.amount - invoice.amount_refunded
        if amount_to_refund ≤ 0 then .error .InvalidAmount
        else refund_invoice_part s invoice_id amount_to_refund now

/-- `pay_invoice` from contracts/shade/src/components/invoice.rs.  The fee is
computed with Rust i128 division, which truncates toward zero (`Int.tdiv`). -/
def pay_invoice (s : State) (payer : Addr) (invoice_id : Nat) (now : Nat) :
    Except ContractError State :=
  match s.invoices invoice_id with
  | none => .error .InvoiceNotFound
  | some invoice =>
    if invoice.status ≠ .Pending then .error .InvalidInvoiceStatus
    else if ¬ s.acceptedTokens invoice.token then .error .TokenNotAccepted
    else
      let fee_bps := s.feeBps invoice.token
      let fee_amount := Int.tdiv (invoice.amount * fee_bps) 10000
      let merchant_amount := invoice.amount - fee_amount
      match s.merchantAccount invoice.merchant_id with
      | none => .error .MerchantAccountNotSet
      | some merchant_account =>
        let step1 :=
          if fee_amount > 0 then transfer s.ledger invoice.token payer s.selfAddr fee_amount
          else .ok s.ledger
        match step1 with
        | .error e => .error e
        | .ok led1 =>
          let step2 :=
            if merchant_amount > 0 then
              transfer led1 invoice.token payer merchant_account merchant_amount
            else .ok led1
          match step2 with
          | .error e => .error e
          | .ok led2 =>
            let invoice2 :=
              { invoice with
                status := InvoiceStatus.Paid
                payer := some payer
                date_paid := some now }
            .ok { s with ledger := led2, invoices := setInv s.invoices invoice_id invoice2 }

/-- `void_invoice` from contracts/shade/src/components/invoice.rs. -/
def void_invoice (s : State) (merchant_address : Addr) (invoice_id : Nat) :
    Except ContractError State :=
  match s.invoices invoice_id with
  | none => .error .InvoiceNotFound
  | some invoice =>
    match s.merchantId merchant_address with
    | none => .error .NotAuthorized
    | some merchant_id =>
      if invoice.merchant_id ≠ merchant_id then .error .NotAuthorized
      else if invoice.status ≠ .Pending then .error .InvalidInvoiceStatus
      else
        .ok { s with invoices := setInv s.invoices invoice_id { invoice with status := .Cancelled } }

/-- `is_paused` from contracts/shade/src/components/pausable.rs. -/
def is_paused (s : State) : Bool := s.paused

/-- `pause` from contracts/shade/src/components/pausable.rs (`core::get_admin`
is not in the source tree; modelled from the spec as the stored admin,
`NotInitialized` when unset). -/
def pause (s : State) (admin : Addr) : Except ContractError State :=
  match s.admin with
  | none => .error .NotInitialized
  | some stored =>
    if stored ≠ admin then .error .NotAuthorized
    else if is_paused s then .error .ContractPaused
    else .ok { s with paused := true }

/-- `unpause` from contracts/shade/src/components/pausable.rs. -/
def unpause (s : State) (admin : Addr) : Except ContractError State :=
  match s.admin with
  | none => .error .NotInitialized
  | some stored =>
    if stored ≠ admin then .error .NotAuthorized
    else if ¬ is_paused s then .error .ContractNotPaused
    else .ok { s with paused := false }

/-- Modelled from the spec: `admin::add_accepted_token` (components/admin.rs
is not in the source tree): admin-only write to the allowlist. -/
def add_accepted_token (s : State) (admin token : Addr) : Except ContractError State :=
  match s.admin with
  | none => .error .NotInitialized
  | some stored =>
    if stored ≠ admin then .error .NotAuthorized
    else .ok { s with acceptedTokens := fun t => if t = token then true else s.acceptedTokens t }

/-- Modelled from the spec: `admin::remove_accepted_token` (components/admin.rs
is not in the source tree): admin-only removal from the allowlist. -/
def remove_accepted_token (s : State) (admin token : Addr) : Except ContractError State :=
  match s.admin with
  | none => .error .NotInitialized
  | some stored =>
    if stored ≠ admin then .error .NotAuthorized
    else .ok { s with acceptedTokens := fun t => if t = token then false else s.acceptedTokens t }

/-- Entry point `create_invoice` from contracts/shade/src/shade.rs:
`assert_not_paused` then the invoice component. -/
def create_invoice_entry (s : State) (merchant : Addr) (description : String)
    (amount : Int) (token : Addr) (now : Nat) : Except ContractError (State × Nat) :=
  if is_paused s then .error .ContractPaused
  else create_invoice s merchant description amount token now

/-- Entry point `add_accepted_token` from contracts/shade/src/shade.rs. -/
def add_accepted_token_entry (s : State) (admin token : Addr) : Except ContractError State :=
  if is_paused s then .error .ContractPaused
  else add_accepted_token s admin token

/-- Entry point `remove_accepted_token` from contracts/shade/src/shade.rs. -/
def remove_accepted_token_entry (s : State) (admin token : Addr) : Except ContractError State :=
  if is_paused s then .error .ContractPaused
  else remove_accepted_token s admin token

/-- Modelled from the spec: the contract wrapper exposing `pay_invoice` is not
in the source tree (tests invoke it through the client); per spec §4.5 every
state-mutating Invoice Engine entry point checks `assert_not_paused` first. -/
def pay_invoice_entry (s : State) (payer : Addr) (invoice_id : Nat) (now : Nat) :
    Except ContractError State :=
  if is_paused s then .error .ContractPaused
  else pay_invoice s payer invoice_id now

/-- Modelled from the spec: the contract wrapper exposing `void_invoice` is not
in the source tree; per spec §4.5 it checks `assert_not_paused` first. -/
def void_invoice_entry (s : State) (merchant : Addr) (invoice_id : Nat) :
    Except ContractError State :=
  if is_paused s then .error .ContractPaused
  else void_invoice s merchant invoice_id

/-- Modelled from the spec: the contract wrapper exposing `refund_invoice` is
not in the source tree; per spec §4.5 it checks `assert_not_paused` first. -/
def refund_invoice_entry (s : State) (merchant : Addr) (invoice_id : Nat) (now : Nat) :
    Except ContractError State :=
  if is_paused s then .error .ContractPaused
  else refund_invoice s merchant invoice_id now

/-- Modelled from the spec: the contract wrapper exposing the partial-refund
operation is not in the source tree; per spec §4.5 it checks
`assert_not_paused` first. -/
def refund_invoice_part_entry (s : State) (invoice_id : Nat) (amount : Int) (now : Nat) :
    Except ContractError State :=
  if is_paused s then .error .ContractPaused
  else refund_invoice_part s invoice_id amount now

/-- Storage and emitted token-added events of one escrow `MerchantAccount`. -/
structure AccountState where
  trackedTokens : List Addr
  tokenAddedEvents : List Addr
  deriving DecidableEq, Repr

/-- Modelled from the spec: the escrow account's `add_token`
(contracts/account/src/account.rs is not in the source tree; behaviour per
spec §4.4 and tests/test_token_balance.rs): re-adding an already-tracked token
is a silent no-op — no event, no state change — otherwise the token is
appended to the tracked set and one token-added event is emitted. -/
def add_token (st : AccountState) (token : Addr) : AccountState :=
  if token ∈ st.trackedTokens then st
  else
    { trackedTokens := st.trackedTokens ++ [token]
      tokenAddedEvents := st.tokenAddedEvents ++ [token] }

/-- `is_accepted_token` read path (contracts/shade/src/shade.rs delegating to
the admin component, modelled from the spec): allowlist membership. -/
def is_accepted_token (s : State) (token : Addr) : Bool :=
  s.acceptedTokens token

/-! ## Concrete states used to evaluate the theorems -/

/-- A pending 1000-unit invoice of merchant 1 payable in token 2. -/
def demoInvoice : Invoice where
  id := 1
  description := "demo"
  amount := 1000
  token := 2
  status := .Pending
  merchant_id := 1
  payer := none
  date_created := 0
  date_paid := none
  amount_refunded := 0

/-- A concrete deployment: admin 0; merchants 1 (id 1, escrow account 3) and
5 (id 2); accepted token 2 at 500 bps; one pending invoice; payer 4 holds
1000 units of token 2; the engine's own address is 9. -/
def demoState : State where
  admin := some 0
  paused := false
  acceptedTokens := fun t => t == 2
  feeBps := fun _ => 500
  merchantId := fun a => if a = 1 then some 1 else if a = 5 then some 2 else none
  merchantAddr := fun i => if i = 1 then some 1 else if i = 2 then some 5 else none
  merchantAccount := fun i => if i = 1 then some 3 else none
  merchantBalance := fun a => if a = 1 then some 3 else none
  invoices := fun i => if i = 1 then some demoInvoice else none
  invoiceCount := 1
  ledger := fun t h => if t = 2 then (if h = 4 then 1000 else 0) else 0
  accountRestricted := fun _ => false
  selfAddr := 9

/-- The demo deployment with the circuit breaker engaged. -/
def demoPausedState : State := { demoState with paused := true }

/-- The demo invoice after being paid by 4 at time 100. -/
def demoPaidInvoice : Invoice :=
  { demoInvoice with status := .Paid, payer := some 4, date_paid := some 100 }

/-- The demo deployment after payment: invoice Paid, escrow account 3 holds
1000 units of token 2. -/
def demoPaidState : State :=
  { demoState with
    invoices := fun i => if i = 1 then some demoPaidInvoice else none
    ledger := fun t h => if t = 2 then (if h = 3 then 1000 else 0) else 0 }

/-- A Paid invoice whose `date_paid` field is absent. -/
def noDatePaidInvoice : Invoice :=
  { demoInvoice with status := .Paid, payer := some 4 }

/-- The demo deployment holding the Paid invoice without `date_paid`. -/
def noDatePaidState : State :=
  { demoState with invoices := fun i => if i = 1 then some noDatePaidInvoice else none }

/-- The demo deployment before any invoice exists. -/
def emptyDemoState : State :=
  { demoState with invoices := fun _ => none, invoiceCount := 0 }

/-! ## Operation sequences over the Invoice Engine -/

/-- One Invoice Engine operation, with its arguments. -/
inductive Op
  | createOp (merchant : Addr) (description : String) (amount : Int) (token : Addr)
  | payOp (payer : Addr) (invoice_id : Nat)
  | voidOp (merchant : Addr) (invoice_id : Nat)
  | refundOp (merchant : Addr) (invoice_id : Nat)
  | refundPartOp (invoice_id : Nat) (amount : Int)

/-- Execute one operation at ledger time `now`. -/
def exec (op : Op) (now : Nat) (s : State) : Except ContractError State :=
  match op with
  | .createOp m d a t =>
    match create_invoice s m d a t now with
    | .error e => .error e
    | .ok (s1, _) => .ok s1
  | .payOp p i => pay_invoice s p i now
  | .voidOp m i => void_invoice s m i
  | .refundOp m i => refund_invoice s m i now
  | .refundPartOp i a => refund_invoice_part s i a now

/-- Run a sequence of timestamped operations; a failed call reverts (keeps the
pre-call state), matching Soroban's transaction semantics. -/
def runOps (ops : List (Op × Nat)) (s : State) : State :=
  match ops with
  | [] => s
  | (op, now) :: rest =>
    match exec op now s with
    | .error _ => runOps rest s
    | .ok s1 => runOps rest s1

/-- The per-invoice invariant of spec §3/§8: refunds never exceed the amount,
the amount is positive, and the Refunded status characterizes full refund. -/
def invoiceInvariant (inv : Invoice) : Prop :=
  0 ≤ inv.amount_refunded ∧ inv.amount_refunded ≤ inv.amount ∧ 0 < inv.amount ∧
    (inv.status = InvoiceStatus.Refunded ↔ inv.amount_refunded = inv.amount)

/-- Every stored invoice satisfies the per-invoice invariant. -/
def storeInvariant (f : Nat → Option Invoice) : Prop :=
  ∀ i inv, f i = some inv → invoiceInvariant inv

/-- The state-level invariant over the invoice store. -/
def stateInvariant (s : State) : Prop :=
  storeInvariant s.invoices

/-! ## Theorems -/

/-- Updating one slot with an invariant-satisfying invoice preserves the
store invariant. -/
theorem storeInvariant_setInv {f : Nat → Option Invoice}
    (hf : storeInvariant f) {j : Nat} {v : Invoice} (hv : invoiceInvariant v) :
    storeInvariant (setInv f j v) := by
  intro i inv h
  by_cases hij : i = j
  · subst hij
    simp [setInv] at h
    exact h ▸ hv
  · simp [setInv, hij] at h
    exact hf i inv h

/-- C7: `pause` called when the contract is already paused fails with
`ContractPaused`, and `unpause` called when the contract is not paused fails
with `ContractNotPaused`; since an error reverts the call, the paused flag is
unchanged in both cases (the idempotent call is rejected, not accepted). -/
theorem pause_unpause_reject_idempotent (s : State) (a : Addr)
    (hadmin : s.admin = some a) :
    (s.paused = true → pause s a = .error .ContractPaused) ∧
    (s.paused = false → unpause s a = .error .ContractNotPaused) := by
  constructor <;> intro h <;> simp [pause, unpause, hadmin, is_paused, h]

/-- Witness for C7 at the demo deployment (admin 0): pausing the paused state
and unpausing the unpaused state are both rejected. -/
theorem pause_unpause_reject_idempotent_witness :
    demoPausedState.admin = some 0 ∧ demoPausedState.paused = true ∧
    demoState.admin = some 0 ∧ demoState.paused = false ∧
    pause demoPausedState 0 = .error .ContractPaused ∧
    unpause demoState 0 = .error .ContractNotPaused :=
  ⟨rfl, rfl, rfl, rfl,
    (pause_unpause_reject_idempotent demoPausedState 0 rfl).1 rfl,
    (pause_unpause_reject_idempotent demoState 0 rfl).2 rfl⟩

/-- C8: adding a token the escrow account does not yet track appends exactly
one entry and one token-added event, and the second `add_token` with the same
token is a silent no-op: the state (tracked set and event log alike) is
unchanged, so two calls leave exactly one entry for the token and at most one
event was emitted. -/
theorem add_token_idempotent (st : AccountState) (tok : Addr)
    (hnew : tok ∉ st.trackedTokens) :
    (add_token st tok).trackedTokens.length = st.trackedTokens.length + 1 ∧
    (add_token st tok).trackedTokens.count tok = 1 ∧
    add_token (add_token st tok) tok = add_token st tok ∧
    (add_token st tok).tokenAddedEvents.length = st.tokenAddedEvents.length + 1 ∧
    (add_token (add_token st tok) tok).tokenAddedEvents.length
      = st.tokenAddedEvents.length + 1 := by
  have h1 : add_token st tok =
      { trackedTokens := st.trackedTokens ++ [tok]
        tokenAddedEvents := st.tokenAddedEvents ++ [tok] } := by
    simp [add_token, hnew]
  have h2 : add_token (add_token st tok) tok = add_token st tok := by
    rw [h1]
    simp [add_token]
  refine ⟨?_, ?_, h2, ?_, ?_⟩
  · rw [h1]; simp
  · rw [h1]
    simp [List.count_append, List.count_eq_zero.mpr hnew]
  · rw [h1]; simp
  · rw [h2, h1]; simp

/-- Witness for C8: adding token 7 twice to a fresh escrow account. -/
theorem add_token_idempotent_witness :
    (7 : Addr) ∉ (AccountState.mk [] []).trackedTokens ∧
    ((add_token (AccountState.mk [] []) 7).trackedTokens.length = 0 + 1 ∧
     (add_token (AccountState.mk [] []) 7).trackedTokens.count 7 = 1 ∧
     add_token (add_token (AccountState.mk [] []) 7) 7
       = add_token (AccountState.mk [] []) 7 ∧
     (add_token (AccountState.mk [] []) 7).tokenAddedEvents.length = 0 + 1 ∧
     (add_token (add_token (AccountState.mk [] []) 7) 7).tokenAddedEvents.length
       = 0 + 1) :=
  ⟨by simp, add_token_idempotent (AccountState.mk [] []) 7 (by simp)⟩

/-- C5: with the contract paused, every state-mutating Invoice Engine entry
point (`create_invoice`, `pay_invoice`, `void_invoice`, `refund_invoice`, the
partial-refund entry) and the admin token-management entry points
(`add_accepted_token`, `remove_accepted_token`) fail with `ContractPaused`
(hence mutate nothing, an error reverting the call), while the read-only
paths `get_invoice` and `is_accepted_token` are insensitive to the flag. -/
theorem paused_blocks_mutating_entries (s : State) (hp : s.paused = true) :
    (∀ m d a t n, create_invoice_entry s m d a t n = .error .ContractPaused) ∧
    (∀ p i n, pay_invoice_entry s p i n = .error .ContractPaused) ∧
    (∀ m i, void_invoice_entry s m i = .error .ContractPaused) ∧
    (∀ m i n, refund_invoice_entry s m i n = .error .ContractPaused) ∧
    (∀ i a n, refund_invoice_part_entry s i a n = .error .ContractPaused) ∧
    (∀ a t, add_accepted_token_entry s a t = .error .ContractPaused) ∧
    (∀ a t, remove_accepted_token_entry s a t = .error .ContractPaused) ∧
    (∀ b i, get_invoice { s with paused := b } i = get_invoice s i) ∧
    (∀ b t, is_accepted_token { s with paused := b } t = is_accepted_token s t) := by
  refine ⟨?_, ?_, ?_, ?_, ?_, ?_, ?_, ?_, ?_⟩ <;>
    intros <;>
    simp [create_invoice_entry, pay_invoice_entry, void_invoice_entry,
      refund_invoice_entry, refund_invoice_part_entry, add_accepted_token_entry,
      remove_accepted_token_entry, get_invoice, is_accepted_token, is_paused, hp]

/-- Witness for C5 at the paused demo deployment. -/
theorem paused_blocks_mutating_entries_witness :
    demoPausedState.paused = true ∧
    create_invoice_entry demoPausedState 1 "x" 5 2 0 = .error .ContractPaused ∧
    pay_invoice_entry demoPausedState 4 1 0 = .error .ContractPaused ∧
    void_invoice_entry demoPausedState 1 1 = .error .ContractPaused ∧
    refund_invoice_entry demoPausedState 1 1 0 = .error .ContractPaused ∧
    refund_invoice_part_entry demoPausedState 1 5 0 = .error .ContractPaused ∧
    add_accepted_token_entry demoPausedState 0 2 = .error .ContractPaused ∧
    remove_accepted_token_entry demoPausedState 0 2 = .error .ContractPaused ∧
    get_invoice { demoPausedState with paused := false } 1
      = get_invoice demoPausedState 1 ∧
    is_accepted_token { demoPausedState with paused := false } 2
      = is_accepted_token demoPausedState 2 :=
  ⟨rfl,
    (paused_blocks_mutating_entries demoPausedState rfl).1 1 "x" 5 2 0,
    (paused_blocks_mutating_entries demoPausedState rfl).2.1 4 1 0,
    (paused_blocks_mutating_entries demoPausedState rfl).2.2.1 1 1,
    (paused_blocks_mutating_entries demoPausedState rfl).2.2.2.1 1 1 0,
    (paused_blocks_mutating_entries demoPausedState rfl).2.2.2.2.1 1 5 0,
    (paused_blocks_mutating_entries demoPausedState rfl).2.2.2.2.2.1 0 2,
    (paused_blocks_mutating_entries demoPausedState rfl).2.2.2.2.2.2.1 0 2,
    (paused_blocks_mutating_entries demoPausedState rfl).2.2.2.2.2.2.2.1 false 1,
    (paused_blocks_mutating_entries demoPausedState rfl).2.2.2.2.2.2.2.2 false 2⟩

/-- C4 counterexample: on a Paid invoice whose `date_paid` is absent (payer
recorded, amount valid), the partial-refund operation fails with
`InvalidInvoiceStatus` — not with `RefundPeriodExpired` as claimed.  The
source unwraps `date_paid` with `InvalidInvoiceStatus`
(components/invoice.rs line 176). -/
theorem refund_datePaid_none_cex :
    refund_invoice_part noDatePaidState 1 100 0 = .error .InvalidInvoiceStatus ∧
    ¬ refund_invoice_part noDatePaidState 1 100 0 = .error .RefundPeriodExpired := by
  have h : refund_invoice_part noDatePaidState 1 100 0
      = Except.error ContractError.InvalidInvoiceStatus := rfl
  refine ⟨h, ?_⟩
  intro hbad
  rw [h] at hbad
  injection hbad with hbad
  exact absurd hbad (by decide)

/-- C4 amended: for every invoice whose `date_paid` field is absent, once the
earlier checks pass (status Paid or PartiallyRefunded, positive amount within
the remaining refundable balance, merchant resolvable), the partial-refund
operation fails — but with `InvalidInvoiceStatus`, the error the source
attaches to the missing `date_paid`, not `RefundPeriodExpired`. -/
theorem refund_datePaid_none_invalid_status (s : State) (invoice_id : Nat)
    (inv : Invoice) (amount : Int) (now : Nat) (maddr : Addr)
    (hinv : s.invoices invoice_id = some inv)
    (hmaddr : s.merchantAddr inv.merchant_id = some maddr)
    (hstat : inv.status = .Paid ∨ inv.status = .PartiallyRefunded)
    (hamt : 0 < amount)
    (hcap : inv.amount_refunded + amount ≤ inv.amount)
    (hdp : inv.date_paid = none) :
    refund_invoice_part s invoice_id amount now = .error .InvalidInvoiceStatus := by
  simp only [refund_invoice_part, hinv, hmaddr, hdp]
  rw [if_neg, if_neg]
  · omega
  · rcases hstat with h | h <;> simp [h]

/-- Witness for the amended C4 at the concrete no-`date_paid` state. -/
theorem refund_datePaid_none_invalid_status_witness :
    noDatePaidState.invoices 1 = some noDatePaidInvoice ∧
    noDatePaidState.merchantAddr noDatePaidInvoice.merchant_id = some 1 ∧
    noDatePaidInvoice.status = .Paid ∧
    (0 : Int) < 100 ∧
    noDatePaidInvoice.amount_refunded + 100 ≤ noDatePaidInvoice.amount ∧
    noDatePaidInvoice.date_paid = none ∧
    refund_invoice_part noDatePaidState 1 100 5 = .error .InvalidInvoiceStatus :=
  ⟨rfl, rfl, rfl, by decide, by decide, rfl,
    refund_datePaid_none_invalid_status noDatePaidState 1 noDatePaidInvoice 100 5 1
      rfl rfl (Or.inl rfl) (by decide) (by decide) rfl⟩

/-- C6: on an invoice of merchant `owner` (merchant id `mid`), `void_invoice`
called by a different registered merchant fails `NotAuthorized`; called by the
owner on a non-Pending invoice it fails `InvalidInvoiceStatus`; called by the
owner on a Pending invoice it sets the status to Cancelled, after which a
second void of the same invoice fails `InvalidInvoiceStatus`. -/
theorem void_invoice_spec (s : State) (owner other : Addr) (invoice_id : Nat)
    (inv : Invoice) (mid mid2 : Nat)
    (hinv : s.invoices invoice_id = some inv)
    (howner : s.merchantId owner = some mid)
    (hmine : inv.merchant_id = mid)
    (hother : s.merchantId other = some mid2)
    (hne : mid2 ≠ mid) :
    (inv.status ≠ .Pending →
      void_invoice s owner invoice_id = .error .InvalidInvoiceStatus) ∧
    void_invoice s other invoice_id = .error .NotAuthorized ∧
    (inv.status = .Pending →
      ∃ s', void_invoice s owner invoice_id = .ok s' ∧
        s'.invoices invoice_id = some { inv with status := .Cancelled } ∧
        void_invoice s' owner invoice_id = .error .InvalidInvoiceStatus) := by
  refine ⟨?_, ?_, ?_⟩
  · intro hnp
    simp [void_invoice, hinv, howner, hmine, hnp]
  · simp only [void_invoice, hinv, hother]
    rw [if_pos]
    omega
  · intro hpend
    have hstep : void_invoice s owner invoice_id =
        .ok { s with invoices := setInv s.invoices invoice_id { inv with status := .Cancelled } } := by
      simp [void_invoice, hinv, howner, hmine, hpend]
    exact ⟨_, hstep, by simp [setInv], by simp [void_invoice, setInv, howner, hmine]⟩

/-- Witness for C6 at the demo deployment: merchant 1 owns pending invoice 1,
merchant 5 (id 2) does not. -/
theorem void_invoice_spec_witness :
    demoState.invoices 1 = some demoInvoice ∧
    demoState.merchantId 1 = some 1 ∧
    demoInvoice.merchant_id = 1 ∧
    demoState.merchantId 5 = some 2 ∧
    (2 : Nat) ≠ 1 ∧
    ((demoInvoice.status ≠ .Pending →
        void_invoice demoState 1 1 = .error .InvalidInvoiceStatus) ∧
      void_invoice demoState 5 1 = .error .NotAuthorized ∧
      (demoInvoice.status = .Pending →
        ∃ s', void_invoice demoState 1 1 = .ok s' ∧
          s'.invoices 1 = some { demoInvoice with status := .Cancelled } ∧
          void_invoice s' 1 1 = .error .InvalidInvoiceStatus)) :=
  ⟨rfl, rfl, rfl, rfl, by decide,
    void_invoice_spec demoState 1 5 1 demoInvoice 1 2 rfl rfl rfl rfl (by decide)⟩

/-- C10: a successful `void_invoice` rewrites the targeted invoice with only
its status changed to Cancelled (id, description, amount, token, merchant_id,
payer, date_created, date_paid and amount_refunded carried over), leaves
every other invoice record untouched, and changes no other storage: the
invoice counter, merchant data, balances, fee table, allowlist, admin, pause
flag and escrow restrictions are all unchanged. -/
theorem void_invoice_frame (s : State) (m : Addr) (invoice_id : Nat)
    (inv : Invoice) (mid : Nat)
    (hinv : s.invoices invoice_id = some inv)
    (hm : s.merchantId m = some mid)
    (hmine : inv.merchant_id = mid)
    (hpend : inv.status = .Pending) :
    ∃ s', void_invoice s m invoice_id = .ok s' ∧
      s'.invoices invoice_id = some { inv with status := .Cancelled } ∧
      (∀ j, j ≠ invoice_id → s'.invoices j = s.invoices j) ∧
      s'.invoiceCount = s.invoiceCount ∧
      s'.merchantId = s.merchantId ∧
      s'.merchantAddr = s.merchantAddr ∧
      s'.merchantAccount = s.merchantAccount ∧
      s'.merchantBalance = s.merchantBalance ∧
      s'.ledger = s.ledger ∧
      s'.acceptedTokens = s.acceptedTokens ∧
      s'.feeBps = s.feeBps ∧
      s'.admin = s.admin ∧
      s'.paused = s.paused ∧
      s'.accountRestricted = s.accountRestricted ∧
      s'.selfAddr = s.selfAddr := by
  have hstep : void_invoice s m invoice_id =
      .ok { s with invoices := setInv s.invoices invoice_id { inv with status := .Cancelled } } := by
    simp [void_invoice, hinv, hm, hmine, hpend]
  exact ⟨_, hstep, by simp [setInv], fun j hj => by simp [setInv, hj],
    rfl, rfl, rfl, rfl, rfl, rfl, rfl, rfl, rfl, rfl, rfl, rfl⟩

/-- A (possibly skipped) guarded transfer, as `pay_invoice` performs it: when
the amount is nonnegative, within the source balance, and source ≠
destination, it yields a ledger debiting the source and crediting the
destination, all other balances untouched (a zero amount skips the external
call and leaves the ledger unchanged). -/
theorem transfer_opt_spec (led : Addr → Addr → Int) (tok src dst : Addr) (amt : Int)
    (h0 : 0 ≤ amt) (hb : amt ≤ led tok src) (hsd : src ≠ dst) :
    ∃ led', (if amt > 0 then transfer led tok src dst amt else .ok led) = .ok led' ∧
      led' tok src = led tok src - amt ∧
      led' tok dst = led tok dst + amt ∧
      (∀ t h, t ≠ tok → led' t h = led t h) ∧
      (∀ h, h ≠ src → h ≠ dst → led' tok h = led tok h) := by
  by_cases hpos : amt > 0
  · rw [if_pos hpos]
    simp only [transfer]
    rw [if_neg (by omega), if_neg (by omega)]
    refine ⟨_, rfl, ?_, ?_, ?_, ?_⟩
    · simp [setBal, hsd]
    · simp [setBal, Ne.symm hsd]
    · intro t h ht
      simp [setBal, ht]
    · intro h h1 h2
      simp [setBal, h1, h2]
  · rw [if_neg hpos]
    exact ⟨led, rfl, by omega, by omega, fun _ _ _ => rfl, fun _ _ _ => rfl⟩

/-- C1: paying a Pending invoice whose token is accepted (with a fee rate of
at most 10000 bps and a sufficient payer balance) succeeds with
`fee = floor(amount * fee_bps / 10000)` (Rust's truncating i128 division
coincides with the floor here since both operands are nonnegative),
`fee + merchant_amount = amount`; the ledger moves `fee` to the engine's own
address and `merchant_amount = amount - fee` to the merchant's escrow
account, the payer paying exactly `amount`; the invoice is stored with status
Paid, the payer recorded, and `date_paid` set to the current timestamp. -/
theorem pay_invoice_spec (s : State) (payer : Addr) (invoice_id : Nat)
    (inv : Invoice) (acct : Addr) (now : Nat)
    (hinv : s.invoices invoice_id = some inv)
    (hstat : inv.status = .Pending)
    (htok : s.acceptedTokens inv.token = true)
    (hamt : 0 < inv.amount)
    (hbps0 : 0 ≤ s.feeBps inv.token)
    (hbps1 : s.feeBps inv.token ≤ 10000)
    (hacct : s.merchantAccount inv.merchant_id = some acct)
    (hbal : inv.amount ≤ s.ledger inv.token payer)
    (hp1 : payer ≠ s.selfAddr)
    (hp2 : payer ≠ acct)
    (hp3 : s.selfAddr ≠ acct) :
    ∃ s' fee,
      pay_invoice s payer invoice_id now = .ok s' ∧
      fee = Int.tdiv (inv.amount * s.feeBps inv.token) 10000 ∧
      fee = ((inv.amount.toNat * (s.feeBps inv.token).toNat / 10000 : Nat) : Int) ∧
      fee + (inv.amount - fee) = inv.amount ∧
      0 ≤ fee ∧ fee ≤ inv.amount ∧
      s'.invoices invoice_id =
        some { inv with status := .Paid, payer := some payer, date_paid := some now } ∧
      (∀ j, j ≠ invoice_id → s'.invoices j = s.invoices j) ∧
      s'.ledger inv.token s.selfAddr = s.ledger inv.token s.selfAddr + fee ∧
      s'.ledger inv.token acct = s.ledger inv.token acct + (inv.amount - fee) ∧
      s'.ledger inv.token payer = s.ledger inv.token payer - inv.amount := by
  have haN : inv.amount = (inv.amount.toNat : Int) := by omega
  have hbN : s.feeBps inv.token = ((s.feeBps inv.token).toNat : Int) := by omega
  have hfee : Int.tdiv (inv.amount * s.feeBps inv.token) 10000
      = ((inv.amount.toNat * (s.feeBps inv.token).toNat / 10000 : Nat) : Int) := by
    rw [haN, hbN, ← Nat.cast_mul]
    exact_mod_cast (Int.ofNat_tdiv (inv.amount.toNat * (s.feeBps inv.token).toNat) 10000).symm
  have hfee0 : 0 ≤ Int.tdiv (inv.amount * s.feeBps inv.token) 10000 := by
    rw [hfee]; omega
  have hfeele : Int.tdiv (inv.amount * s.feeBps inv.token) 10000 ≤ inv.amount := by
    rw [hfee]
    have hble : (s.feeBps inv.token).toNat ≤ 10000 := by omega
    have hnat : inv.amount.toNat * (s.feeBps inv.token).toNat / 10000 ≤ inv.amount.toNat := by
      calc inv.amount.toNat * (s.feeBps inv.token).toNat / 10000
          ≤ inv.amount.toNat * 10000 / 10000 :=
            Nat.div_le_div_right (Nat.mul_le_mul_left _ hble)
        _ = inv.amount.toNat := Nat.mul_div_cancel _ (by norm_num)
    omega
  obtain ⟨led1, h1, e1src, e1dst, e1t, e1o⟩ :=
    transfer_opt_spec s.ledger inv.token payer s.selfAddr
      (Int.tdiv (inv.amount * s.feeBps inv.token) 10000) hfee0
      (le_trans hfeele hbal) hp1
  obtain ⟨led2, h2, e2src, e2dst, e2t, e2o⟩ :=
    transfer_opt_spec led1 inv.token payer acct
      (inv.amount - Int.tdiv (inv.amount * s.feeBps inv.token) 10000)
      (by omega) (by rw [e1src]; omega) hp2
  have hstep : pay_invoice s payer invoice_id now = .ok { s with ledger := led2, invoices := setInv s.invoices invoice_id { inv with status := .Paid, payer := some payer, date_paid := some now } } := by
    simp only [pay_invoice, hinv]
    rw [if_neg (by simp [hstat])]
    rw [if_neg (by simp [htok])]
    simp only [hacct, h1, h2]
  refine ⟨_, Int.tdiv (inv.amount * s.feeBps inv.token) 10000,
    hstep, rfl, hfee, by ring, hfee0, hfeele, by simp [setInv],
    fun j hj => by simp [setInv, hj], ?_, ?_, ?_⟩
  · show led2 inv.token s.selfAddr
      = s.ledger inv.token s.selfAddr + Int.tdiv (inv.amount * s.feeBps inv.token) 10000
    rw [e2o s.selfAddr (Ne.symm hp1) hp3, e1dst]
  · show led2 inv.token acct
      = s.ledger inv.token acct + (inv.amount - Int.tdiv (inv.amount * s.feeBps inv.token) 10000)
    rw [e2dst, e1o acct (Ne.symm hp2) (Ne.symm hp3)]
  · show led2 inv.token payer = s.ledger inv.token payer - inv.amount
    rw [e2src, e1src]
    ring

/-- Witness for C1: payer 4 settles the demo invoice (1000 units of token 2
at 500 bps) at time 77: fee 50 to the engine (address 9), 950 to escrow
account 3. -/
theorem pay_invoice_spec_witness :
    demoState.invoices 1 = some demoInvoice ∧
    demoInvoice.status = .Pending ∧
    demoState.acceptedTokens demoInvoice.token = true ∧
    (0 : Int) < demoInvoice.amount ∧
    (0 : Int) ≤ demoState.feeBps demoInvoice.token ∧
    demoState.feeBps demoInvoice.token ≤ 10000 ∧
    demoState.merchantAccount demoInvoice.merchant_id = some 3 ∧
    demoInvoice.amount ≤ demoState.ledger demoInvoice.token 4 ∧
    (4 : Addr) ≠ demoState.selfAddr ∧ (4 : Addr) ≠ 3 ∧ demoState.selfAddr ≠ 3 ∧
    (∃ s' fee,
      pay_invoice demoState 4 1 77 = .ok s' ∧
      fee = Int.tdiv (demoInvoice.amount * demoState.feeBps demoInvoice.token) 10000 ∧
      fee = ((demoInvoice.amount.toNat * (demoState.feeBps demoInvoice.token).toNat / 10000 : Nat) : Int) ∧
      fee + (demoInvoice.amount - fee) = demoInvoice.amount ∧
      0 ≤ fee ∧ fee ≤ demoInvoice.amount ∧
      s'.invoices 1 =
        some { demoInvoice with status := .Paid, payer := some 4, date_paid := some 77 } ∧
      (∀ j, j ≠ 1 → s'.invoices j = demoState.invoices j) ∧
      s'.ledger demoInvoice.token demoState.selfAddr
        = demoState.ledger demoInvoice.token demoState.selfAddr + fee ∧
      s'.ledger demoInvoice.token 3
        = demoState.ledger demoInvoice.token 3 + (demoInvoice.amount - fee) ∧
      s'.ledger demoInvoice.token 4
        = demoState.ledger demoInvoice.token 4 - demoInvoice.amount) :=
  ⟨rfl, rfl, rfl, by decide, by decide, by decide, rfl, by decide, by decide,
    by decide, by decide,
    pay_invoice_spec demoState 4 1 demoInvoice 3 77 rfl rfl rfl (by decide)
      (by decide) (by decide) rfl (by decide) (by decide) (by decide) (by decide)⟩

/-- `create_invoice` preserves the invoice-store invariant: the freshly stored
invoice has a positive amount, zero refunds, and status Pending. -/
theorem create_invoice_preserves {s s' : State} {m : Addr} {d : String} {a : Int}
    {t : Addr} {n : Nat} {i : Nat}
    (hs : stateInvariant s) (h : create_invoice s m d a t n = .ok (s', i)) :
    stateInvariant s' := by
  unfold create_invoice at h
  split at h
  · exact absurd h (by simp)
  next hA =>
    split at h
    · exact absurd h (by simp)
    next hM =>
      split at h
      · exact absurd h (by simp)
      next mid hmid =>
        simp only [Except.ok.injEq, Prod.mk.injEq] at h
        obtain ⟨h1, -⟩ := h
        subst h1
        refine storeInvariant_setInv hs ?_
        simp only [invoiceInvariant]
        refine ⟨le_refl 0, by omega, by omega, ?_⟩
        constructor
        · intro hc
          exact absurd hc (by decide)
        · intro hc
          omega

/-- `pay_invoice` preserves the invoice-store invariant: it only flips a
Pending invoice (whose refunds cannot be full, the amount being positive) to
Paid, leaving amounts untouched. -/
theorem pay_invoice_preserves {s s' : State} {p : Addr} {i : Nat} {n : Nat}
    (hs : stateInvariant s) (h : pay_invoice s p i n = .ok s') :
    stateInvariant s' := by
  unfold pay_invoice at h
  split at h
  · exact absurd h (by simp)
  next invoice hinv =>
    split at h
    · exact absurd h (by simp)
    next hstat =>
      split at h
      · exact absurd h (by simp)
      next htok =>
        split at h
        · exact absurd h (by simp)
        next acct hacct =>
          have hfin : ∀ led : Addr → Addr → Int,
              stateInvariant { s with ledger := led, invoices := setInv s.invoices i { invoice with status := InvoiceStatus.Paid, payer := some p, date_paid := some n } } := by
            intro led
            obtain ⟨hr0, hrle, hpos, hiff⟩ := hs i invoice hinv
            refine storeInvariant_setInv hs ⟨hr0, hrle, hpos, ?_⟩
            have hp : invoice.status = .Pending := not_not.mp hstat
            constructor
            · intro hc
              exact absurd hc (by simp)
            · intro hc
              have h3 := hiff.mpr hc
              rw [hp] at h3
              exact absurd h3 (by decide)
          simp only [] at h
          split at h
          · exact absurd h (by simp)
          next led1 h1 =>
            split at h
            · exact absurd h (by simp)
            next led2 h2 =>
              simp only [Except.ok.injEq] at h
              subst h
              exact hfin _

/-- `void_invoice` preserves the invoice-store invariant: it only flips a
Pending invoice to Cancelled. -/
theorem void_invoice_preserves {s s' : State} {m : Addr} {i : Nat}
    (hs : stateInvariant s) (h : void_invoice s m i = .ok s') :
    stateInvariant s' := by
  unfold void_invoice at h
  split at h
  · exact absurd h (by simp)
  next invoice hinv =>
    split at h
    · exact absurd h (by simp)
    next mid hmid =>
      split at h
      · exact absurd h (by simp)
      next hown =>
        split at h
        · exact absurd h (by simp)
        next hstat =>
          simp only [Except.ok.injEq] at h
          subst h
          obtain ⟨hr0, hrle, hpos, hiff⟩ := hs i invoice hinv
          refine storeInvariant_setInv hs ⟨hr0, hrle, hpos, ?_⟩
          have hp : invoice.status = .Pending := not_not.mp hstat
          constructor
          · intro hc
            exact absurd hc (by simp)
          · intro hc
            have h3 := hiff.mpr hc
            rw [hp] at h3
            exact absurd h3 (by decide)

/-- The escrow refund call only moves ledger balances; the engine's invoice
store is untouched. -/
theorem accountRefund_invoices {s s1 : State} {acct tok : Addr} {amt : Int}
    {r : Addr} (h : accountRefund s acct tok amt r = .ok s1) :
    s1.invoices = s.invoices := by
  unfold accountRefund at h
  split at h
  · exact absurd h (by simp)
  · split at h
    · exact absurd h (by simp)
    next led htr =>
      simp only [Except.ok.injEq] at h
      subst h
      rfl

/-- The partial-refund operation preserves the invoice-store invariant: the
refunded total stays within the amount and the status tracks full coverage. -/
theorem refund_invoice_part_preserves {s s' : State} {i : Nat} {a : Int} {n : Nat}
    (hs : stateInvariant s) (h : refund_invoice_part s i a n = .ok s') :
    stateInvariant s' := by
  unfold refund_invoice_part at h
  split at h
  · exact absurd h (by simp)
  next invoice hinv =>
    split at h
    · exact absurd h (by simp)
    next maddr hmaddr =>
      split at h
      · exact absurd h (by simp)
      next hstat =>
        split at h
        · exact absurd h (by simp)
        next hamt =>
          split at h
          · exact absurd h (by simp)
          next dp hdp =>
            split at h
            · exact absurd h (by simp)
            next hwin =>
              split at h
              · exact absurd h (by simp)
              next payer hpayer =>
                split at h
                · exact absurd h (by simp)
                next acct hacct =>
                  split at h
                  · exact absurd h (by simp)
                  next s1 href =>
                    simp only [Except.ok.injEq] at h
                    subst h
                    have hsame := accountRefund_invoices href
                    obtain ⟨hr0, hrle, hpos, hiff⟩ := hs i invoice hinv
                    have hcap : ¬ (a ≤ 0 ∨ invoice.amount_refunded + a > invoice.amount) := hamt
                    refine storeInvariant_setInv ?_ ?_
                    · rw [hsame]
                      exact hs
                    · refine ⟨?_, ?_, ?_, ?_⟩
                      · show (0 : Int) ≤ invoice.amount_refunded + a
                        omega
                      · show invoice.amount_refunded + a ≤ invoice.amount
                        omega
                      · exact hpos
                      · by_cases hc : invoice.amount_refunded + a = invoice.amount
                        · simp [hc]
                        · simp [hc]

/-- `refund_invoice` preserves the invoice-store invariant (it delegates to
the partial-refund path). -/
theorem refund_invoice_preserves {s s' : State} {m : Addr} {i : Nat} {n : Nat}
    (hs : stateInvariant s) (h : refund_invoice s m i n = .ok s') :
    stateInvariant s' := by
  unfold refund_invoice at h
  split at h
  · exact absurd h (by simp)
  next invoice hinv =>
    split at h
    · exact absurd h (by simp)
    next mid hmid =>
      split at h
      · exact absurd h (by simp)
      next hown =>
        simp only [] at h
        split at h
        · exact absurd h (by simp)
        next hamt =>
          exact refund_invoice_part_preserves hs h

/-- A single successful operation preserves the invoice-store invariant. -/
theorem exec_preserves {op : Op} {n : Nat} {s s' : State}
    (hs : stateInvariant s) (h : exec op n s = .ok s') : stateInvariant s' := by
  cases op with
  | createOp m d a t =>
    simp only [exec] at h
    split at h
    · exact absurd h (by simp)
    next s1 i hcr =>
      simp only [Except.ok.injEq] at h
      subst h
      exact create_invoice_preserves hs hcr
  | payOp p i => exact pay_invoice_preserves hs h
  | voidOp m i => exact void_invoice_preserves hs h
  | refundOp m i => exact refund_invoice_preserves hs h
  | refundPartOp i a => exact refund_invoice_part_preserves hs h

/-- Running any sequence of operations preserves the invoice-store
invariant (failed calls revert and change nothing). -/
theorem runOps_preserves (ops : List (Op × Nat)) {s : State}
    (hs : stateInvariant s) : stateInvariant (runOps ops s) := by
  induction ops generalizing s with
  | nil => exact hs
  | cons hd tl ih =>
    obtain ⟨op, n⟩ := hd
    unfold runOps
    split
    · exact ih hs
    next s1 hex => exact ih (exec_preserves hs hex)

/-- C2: starting from any state whose stored invoices satisfy the invariant
(e.g. a fresh deployment), after any sequence of `create_invoice`,
`pay_invoice`, `void_invoice`, `refund_invoice` and partial-refund
operations, every stored invoice satisfies
`0 ≤ amount_refunded ≤ amount`, `amount > 0`, and
`status = Refunded ↔ amount_refunded = amount`. -/
theorem invoice_invariants_hold (ops : List (Op × Nat)) (s : State)
    (hs : stateInvariant s) :
    ∀ i inv, (runOps ops s).invoices i = some inv →
      0 ≤ inv.amount_refunded ∧ inv.amount_refunded ≤ inv.amount ∧
        0 < inv.amount ∧
        (inv.status = InvoiceStatus.Refunded ↔ inv.amount_refunded = inv.amount) :=
  fun i inv h => runOps_preserves ops hs i inv h

/-- Witness for C2: a create–pay–refund sequence on the fresh demo
deployment. -/
theorem invoice_invariants_hold_witness :
    stateInvariant emptyDemoState ∧
    (∀ i inv,
      (runOps [(Op.createOp 1 "w" 40 2, 0), (Op.payOp 4 1, 5),
        (Op.refundPartOp 1 40, 10)] emptyDemoState).invoices i = some inv →
      0 ≤ inv.amount_refunded ∧ inv.amount_refunded ≤ inv.amount ∧
        0 < inv.amount ∧
        (inv.status = InvoiceStatus.Refunded ↔ inv.amount_refunded = inv.amount)) := by
  have hEmpty : stateInvariant emptyDemoState := by
    intro i inv h
    simp [emptyDemoState] at h
  exact ⟨hEmpty, invoice_invariants_hold _ _ hEmpty⟩

/-- C9: `create_invoice` never consults the accepted-token allowlist — a
registered merchant creating a positive-amount invoice against a token that is
NOT accepted still succeeds, allocating the next id with status Pending; the
`TokenNotAccepted` error only surfaces later, when `pay_invoice` is attempted
on that invoice. -/
theorem create_invoice_skips_allowlist (s : State) (m : Addr) (mid : Nat)
    (d : String) (amount : Int) (tok : Addr) (now now2 : Nat) (p : Addr)
    (hm : s.merchantId m = some mid)
    (hamt : 0 < amount)
    (htok : s.acceptedTokens tok = false) :
    ∃ s', create_invoice s m d amount tok now = .ok (s', s.invoiceCount + 1) ∧
      s'.invoices (s.invoiceCount + 1) =
        some ⟨s.invoiceCount + 1, d, amount, tok, .Pending, mid, none, now, none, 0⟩ ∧
      pay_invoice s' p (s.invoiceCount + 1) now2 = .error .TokenNotAccepted := by
  have hA : ¬ (amount ≤ 0) := by omega
  have hstep : create_invoice s m d amount tok now =
      .ok ({ s with invoices := setInv s.invoices (s.invoiceCount + 1) ⟨s.invoiceCount + 1, d, amount, tok, .Pending, mid, none, now, none, 0⟩, invoiceCount := s.invoiceCount + 1 }, s.invoiceCount + 1) := by
    simp [create_invoice, is_merchant, hm, hA]
  refine ⟨_, hstep, by simp [setInv], ?_⟩
  simp [pay_invoice, setInv, htok]

/-- Witness for C9: merchant 1 creates a 500-unit invoice on token 8, which is
not on the demo allowlist; payment by 4 then fails `TokenNotAccepted`. -/
theorem create_invoice_skips_allowlist_witness :
    emptyDemoState.merchantId 1 = some 1 ∧
    (0 : Int) < 500 ∧
    emptyDemoState.acceptedTokens 8 = false ∧
    (∃ s', create_invoice emptyDemoState 1 "nt" 500 8 0 = .ok (s', 0 + 1) ∧
      s'.invoices (0 + 1) = some ⟨0 + 1, "nt", 500, 8, .Pending, 1, none, 0, none, 0⟩ ∧
      pay_invoice s' 4 (0 + 1) 3 = .error .TokenNotAccepted) :=
  ⟨rfl, by decide, rfl,
    create_invoice_skips_allowlist emptyDemoState 1 1 "nt" 500 8 0 3 4 rfl
      (by decide) rfl⟩

/-- C3: for an invoice in status Paid or PartiallyRefunded with
`date_paid = dp`, and all other refund preconditions holding, the
partial-refund operation at time `dp + 604800` (the last second of the
window) succeeds, whereas at any time strictly later — in particular
`dp + 604801` — it fails with `RefundPeriodExpired`. -/
theorem refund_window_boundary (s : State) (invoice_id : Nat) (inv : Invoice)
    (amount : Int) (dp : Nat) (maddr acct payer : Addr)
    (hinv : s.invoices invoice_id = some inv)
    (hstat : inv.status = .Paid ∨ inv.status = .PartiallyRefunded)
    (hdp : inv.date_paid = some dp)
    (hpayer : inv.payer = some payer)
    (hmaddr : s.merchantAddr inv.merchant_id = some maddr)
    (hacct : s.merchantBalance maddr = some acct)
    (hres : s.accountRestricted acct = false)
    (hamt : 0 < amount)
    (hcap : inv.amount_refunded + amount ≤ inv.amount)
    (hbal : amount ≤ s.ledger inv.token acct) :
    (∃ s', refund_invoice_part s invoice_id amount (dp + MAX_REFUND_DURATION) = .ok s') ∧
    (∀ t, dp + MAX_REFUND_DURATION < t →
      refund_invoice_part s invoice_id amount t = .error .RefundPeriodExpired) := by
  have hne : ¬ (inv.status ≠ .Paid ∧ inv.status ≠ .PartiallyRefunded) := by
    rcases hstat with h | h <;> simp [h]
  have hamt' : ¬ (amount ≤ 0 ∨ inv.amount_refunded + amount > inv.amount) := by omega
  constructor
  · simp only [refund_invoice_part, hinv, hmaddr, hdp, hpayer, hacct]
    rw [if_neg hne, if_neg hamt',
      if_neg (by omega :
        ¬ (dp + MAX_REFUND_DURATION < dp ∨
           dp + MAX_REFUND_DURATION - dp > MAX_REFUND_DURATION))]
    simp only [accountRefund, hres, Bool.false_eq_true, if_false, transfer]
    rw [if_neg (by omega), if_neg (by omega)]
    exact ⟨_, rfl⟩
  · intro t ht
    simp only [refund_invoice_part, hinv, hmaddr, hdp, hpayer, hacct]
    rw [if_neg hne, if_neg hamt',
      if_pos (by omega : t < dp ∨ t - dp > MAX_REFUND_DURATION)]

/-- Witness for C3: refunding 275 units of the paid demo invoice
(`date_paid = 100`) succeeds at time 100 + 604800 and fails with
`RefundPeriodExpired` at 100 + 604801. -/
theorem refund_window_boundary_witness :
    demoPaidState.invoices 1 = some demoPaidInvoice ∧
    demoPaidInvoice.status = .Paid ∧
    demoPaidInvoice.date_paid = some 100 ∧
    demoPaidInvoice.payer = some 4 ∧
    demoPaidState.merchantAddr demoPaidInvoice.merchant_id = some 1 ∧
    demoPaidState.merchantBalance 1 = some 3 ∧
    demoPaidState.accountRestricted 3 = false ∧
    (0 : Int) < 275 ∧
    demoPaidInvoice.amount_refunded + 275 ≤ demoPaidInvoice.amount ∧
    (275 : Int) ≤ demoPaidState.ledger demoPaidInvoice.token 3 ∧
    ((∃ s', refund_invoice_part demoPaidState 1 275 (100 + MAX_REFUND_DURATION) = .ok s') ∧
      (∀ t, 100 + MAX_REFUND_DURATION < t →
        refund_invoice_part demoPaidState 1 275 t = .error .RefundPeriodExpired)) :=
  ⟨rfl, rfl, rfl, rfl, rfl, rfl, rfl, by decide, by decide, by decide,
    refund_window_boundary demoPaidState 1 demoPaidInvoice 275 100 1 3 4
      rfl (Or.inl rfl) rfl rfl rfl rfl rfl (by decide) (by decide) (by decide)⟩

/-- Witness for C10: voiding the demo pending invoice. -/
theorem void_invoice_frame_witness :
    demoState.invoices 1 = some demoInvoice ∧
    demoState.merchantId 1 = some 1 ∧
    demoInvoice.merchant_id = 1 ∧
    demoInvoice.status = .Pending ∧
    (∃ s', void_invoice demoState 1 1 = .ok s' ∧
      s'.invoices 1 = some { demoInvoice with status := .Cancelled } ∧
      (∀ j, j ≠ 1 → s'.invoices j = demoState.invoices j) ∧
      s'.invoiceCount = demoState.invoiceCount ∧
      s'.merchantId = demoState.merchantId ∧
      s'.merchantAddr = demoState.merchantAddr ∧
      s'.merchantAccount = demoState.merchantAccount ∧
      s'.merchantBalance = demoState.merchantBalance ∧
      s'.ledger = demoState.ledger ∧
      s'.acceptedTokens = demoState.acceptedTokens ∧
      s'.feeBps = demoState.feeBps ∧
      s'.admin = demoState.admin ∧
      s'.paused = demoState.paused ∧
      s'.accountRestricted = demoState.accountRestricted ∧
      s'.selfAddr = demoState.selfAddr) :=
  ⟨rfl, rfl, rfl, rfl, void_invoice_frame demoState 1 1 demoInvoice 1 rfl rfl rfl rfl⟩

end Shade
